import Mathlib

/-!
# geektime-downloader: navigation and batch download of `cmd/root.go`

A shallow embedding of the control flow of `src/cmd/root.go`.

* Go `int` values that the program only ever holds in the range `0..7`
  (`columnOutputType`, checked by `Run` to lie in `1..7`, and the mask `b`) are
  natural numbers; the bit operators are the ones of `Nat`.
* Everything outside the file (prompts, catalog client, content engines, file
  system, browser) is an oracle: a field of `Env` for calls whose answer may be
  looked up by argument, a script in `State` for calls answered in sequence.
* Every external call leaves an `Event` in the trace of the state, so that
  statements about which calls happen, and in which order, are statements about
  lists.
* A Go function either returns, or the process ends inside it (`checkError` on a
  non-nil error), or it panics; `Outcome` records which.
-/

namespace Geektime

/-! ## Data model -/

/-- A non-nil Go `error`, kept as its message. `Option Error` is the Go type `error`. -/
abbrev Error := String

/-- The type tag of a product: the three constants `geektime.ProductTypeColumn`,
`geektime.ProductTypeNormalVideo`, `geektime.ProductTypeUniversityVideo`, and
`other` for every further value (the zero value among them). -/
inductive ProductType where
  | column
  | normalVideo
  | universityVideo
  | other
  deriving DecidableEq

/-- The fields of `geektime.Article` that `root.go` reads. -/
structure Article where
  AID : Int
  Title : String
  deriving DecidableEq

/-- The fields of `geektime.Product` that `root.go` reads. -/
structure Product where
  ID : Int
  Title : String
  /-- The field `Type` of the Go struct. -/
  Type_ : ProductType
  Access : Bool
  Articles : List Article
  deriving DecidableEq

/-- The zero value of `geektime.Product`, the initial `currentProduct`. -/
def Product.zero : Product :=
  { ID := 0, Title := "", Type_ := ProductType.other, Access := false, Articles := [] }

/-- The functions of `root.go` that call one another for navigation. -/
inductive Call where
  | selectProduct
  | productOps
  | selectArticle
  | handleSelectArticle (index : Nat)
  | handleDownloadAll
  | loadProduct (productID : Int)
  deriving DecidableEq

/-- The observable actions of the program, in the order they happen. -/
inductive Event where
  /-- Entry into one of the navigation functions. -/
  | enter (c : Call)
  /-- The product-identity prompt was answered with this string. -/
  | promptID (s : String)
  /-- A selection prompt was answered with this index. -/
  | promptSelect (index : Nat)
  /-- Catalog lookup of a product: `GetMyClassProduct` when `university`, else `GetColumnInfo`. -/
  | getProduct (university : Bool) (id : Int)
  /-- The "not purchased" message of `loadProduct`. -/
  | denied
  /-- The assignment `currentProduct = p`. -/
  | install (p : Product)
  /-- Catalog lookup `geektime.GetArticles`. -/
  | getArticles (id : Int)
  /-- The index expression `currentProduct.Articles[i]`. -/
  | lookup (i : Int)
  /-- The call `os.MkdirAll` of `mkDownloadProjectDir`. -/
  | mkdirAll (path : List String)
  /-- The call `ioutil.ReadDir` of `findDownloadedArticleFileNames`. -/
  | readDir (path : List String)
  /-- The call `chromedp.Run(chromedpCtx)` that starts the shared browser. -/
  | startBrowser
  /-- The call `cancel()` that ends the browser context. -/
  | cancel
  /-- The call `cancel1()` that ends the allocator. -/
  | cancel1
  /-- The call `pdf.PrintArticlePageToPDF`. -/
  | printPDF (aid : Int)
  /-- The call `geektime.GetColumnArticleInfo`. -/
  | articleInfo (aid : Int)
  /-- The call `markdown.Download`. -/
  | markdown (aid : Int)
  /-- The call `audio.DownloadAudio`. -/
  | audio (aid : Int)
  /-- The call `geektime.GetVideoInfo`. -/
  | videoInfo (aid : Int)
  /-- The call `video.DownloadHLSStandardEncryptVideo`. -/
  | hlsVideo (aid : Int)
  /-- The call `video.DownloadAliyunVodEncryptVideo`. -/
  | vodVideo (aid : Int)
  /-- The progress line of `increasePDFCount`. -/
  | progress (i total : Nat)
  /-- The pair `rand.Intn(2000)`, `time.Sleep` after a column item. -/
  | jitter
  /-- The line printed after a single article, followed by `time.Sleep(time.Second)`. -/
  | finishedOne (title : String)
  /-- The line printed by `handleDownloadAll` before it returns. -/
  | finishedAll
  deriving DecidableEq

/-- The flag variables of the package that steer control flow, the constants and
helpers of other packages, and the answers of the outside world that depend
only on the argument of the call. -/
structure Env where
  phone : String
  gcid : String
  downloadFolder : String
  productID : String
  downloadAll : Bool
  university : Bool
  columnOutputType : Nat
  /-- The helper `filenamify.Filenamify`. -/
  filenamify : String → String
  /-- The constant `pdf.PDFExtension`. -/
  pdfExtension : String
  /-- The constant `markdown.MDExtension`. -/
  mdExtension : String
  /-- The constant `audio.MP3Extension`. -/
  mp3Extension : String
  /-- The constant `video.TSExtension`. -/
  tsExtension : String
  /-- The error of `os.MkdirAll` for a path. -/
  mkdirAll : List String → Option Error
  /-- The entry names and the error of `ioutil.ReadDir` for a path. -/
  readDir : List String → List String × Option Error
  /-- The answer `(articles, err)` of `geektime.GetArticles`. -/
  getArticles : Int → List Article × Option Error
  /-- The error of `chromedp.Run`. -/
  chromeRun : Option Error
  /-- The error of `pdf.PrintArticlePageToPDF` for an article. -/
  printPDF : Int → Option Error
  /-- The error of `geektime.GetColumnArticleInfo` for an article. -/
  articleInfo : Int → Option Error
  /-- The error of `markdown.Download` for an article. -/
  markdown : Int → Option Error
  /-- The error of `audio.DownloadAudio` for an article. -/
  audio : Int → Option Error
  /-- The error of `geektime.GetVideoInfo` for an article. -/
  videoInfo : Int → Option Error
  /-- The error of `video.DownloadHLSStandardEncryptVideo` for an article. -/
  hlsVideo : Int → Option Error
  /-- The error of `video.DownloadAliyunVodEncryptVideo` for an article. -/
  vodVideo : Int → Option Error

/-- The mutable part: the global `currentProduct`, what the user and the catalog
will still answer, and the trace so far. -/
structure State where
  currentProduct : Product
  /-- Lines the user will still type at the product-identity prompt. -/
  idLines : List String
  /-- Cursor positions the user will still choose at selection prompts. -/
  picks : List Nat
  /-- Answers `(p, err)` the catalog will still give to product lookups. -/
  catalog : List (Product × Option Error)
  trace : List Event
  deriving DecidableEq

/-- How a call of a Go function ends. -/
inductive Outcome where
  /-- The function returned to its caller. -/
  | returned
  /-- The process ended inside the call: `checkError` received this error. -/
  | exited (e : Error)
  /-- A run-time panic: an index out of range. -/
  | panicked
  /-- The model ran out of fuel. -/
  | outOfFuel
  deriving DecidableEq

/-- Append events to the trace. -/
def State.emit (s : State) (es : List Event) : State :=
  { s with trace := s.trace ++ es }

/-! ## Bit arithmetic -/

/-- `setBit` of `root.go`: `n |= (1 << pos)`. -/
def setBit (n : Nat) (pos : Nat) : Nat :=
  n ||| (1 <<< pos)

/-- The Go operator `&^` (bit clear) on non-negative integers: the bits of `x`
that are not bits of `y`. -/
def andNot (x y : Nat) : Nat :=
  x ^^^ (x &&& y)

/-- The expression `R & ~E` of the specification on three-bit masks. -/
def missing (R E : Nat) : Nat :=
  R &&& (7 ^^^ E)

/-! ## `strconv.Atoi` and the validation of the product identity -/

/-- What the digit loop of Go's `strconv.ParseUint` (base 10, 64 bits) yields. -/
inductive Parsed where
  /-- A character that is not a decimal digit. -/
  | syntaxError
  /-- The value left the range of `uint64`. -/
  | rangeError
  /-- The value of the digits. -/
  | value (n : Nat)
  deriving DecidableEq

/-- The digit loop of Go's `strconv.ParseUint` for base 10 and 64 bits: the
characters are read from the left; one that is not a digit is a syntax error, a
value that would leave the range of `uint64` is a range error at the digit where
that happens. -/
def parseUint : List Char → Nat → Parsed
  | [], n => Parsed.value n
  | c :: cs, n =>
    if 48 ≤ c.toNat ∧ c.toNat ≤ 57 then
      if n ≥ (2 ^ 64 - 1) / 10 + 1 then Parsed.rangeError
      else if n * 10 + (c.toNat - 48) > 2 ^ 64 - 1 then Parsed.rangeError
      else parseUint cs (n * 10 + (c.toNat - 48))
    else Parsed.syntaxError

/-- Go's `strconv.Atoi` on a 64-bit platform (the standard library, not part of
the repository): an optional sign followed by at least one decimal digit. A
syntax error gives `0`, a range error the nearest value of `int`, both together
with a non-nil error. -/
def atoi (s : String) : Int × Option Error :=
  match s.toList with
  | [] => (0, some "invalid syntax")
  | c :: cs =>
    let neg : Bool := c == '-'
    let body : List Char := if c == '+' || c == '-' then cs else c :: cs
    if body.isEmpty then (0, some "invalid syntax")
    else
      match parseUint body 0 with
      | Parsed.syntaxError => (0, some "invalid syntax")
      | r =>
        let un : Nat := match r with
          | Parsed.value n => n
          | _ => 2 ^ 64 - 1
        if !neg && un ≥ 2 ^ 63 then ((2 ^ 63 - 1 : Int), some "value out of range")
        else if neg && un > 2 ^ 63 then (- (2 ^ 63 : Int), some "value out of range")
        else (if neg then - (un : Int) else (un : Int), none)

/-- Go's `unicode.IsSpace`. -/
def isSpace (c : Char) : Bool :=
  let n := c.toNat
  (9 ≤ n && n ≤ 13) || n == 32 || n == 0x85 || n == 0xA0 || n == 0x1680 ||
    (0x2000 ≤ n && n ≤ 0x200A) || n == 0x2028 || n == 0x2029 || n == 0x202F ||
    n == 0x205F || n == 0x3000

/-- The `Validate` function of the product-identity prompt in `selectProduct`:
the error it returns, `none` when the input is accepted. -/
def validateProductID (s : String) : Option Error :=
  if s.toList.all isSpace then some "empty"
  else if (atoi s).2.isSome then some "malformed"
  else none

/-- The call `prompt.Run()` of the product-identity prompt: the prompt keeps
asking until a line passes `Validate`; the end of the input is an error. -/
def promptProductID : List String → Except Error String × List String
  | [] => (Except.error "EOF", [])
  | l :: ls => if (validateProductID l).isNone then (Except.ok l, ls) else promptProductID ls

/-- The call `prompt.Run()` of a selection prompt over `size` entries, `size`
positive: the user moves the cursor down `k` times, stopping at the last entry,
and confirms; the end of the input is an error. -/
def promptSelect (size : Nat) : List Nat → Except Error Nat × List Nat
  | [] => (Except.error "EOF", [])
  | k :: ks => (Except.ok (min k (size - 1)), ks)

/-! ## The directory snapshot -/

/-- `findDownloadedArticleFileNames`, given what `ioutil.ReadDir` returned: the
set of names (as a list) and the error. -/
def findDownloadedArticleFileNames (rd : List String × Option Error) :
    List String × Option Error :=
  let files := rd.1
  let err := rd.2
  let res : List String := []
  if err.isSome then (res, err)
  else if files.length = 0 then (res, none)
  else (files.foldl (fun acc f => if f ∈ acc then acc else acc ++ [f]) res, none)

/-- The argument of `os.MkdirAll` in `mkDownloadProjectDir`: the components that
`filepath.Join` puts together. -/
def projectPath (env : Env) (projectName : String) : List String :=
  let userName := if env.gcid ≠ "" then env.gcid else env.phone
  [env.downloadFolder, userName, env.filenamify projectName]

/-- `mkDownloadProjectDir`: the path, as its components, and the error. -/
def mkDownloadProjectDir (env : Env) (projectName : String) : List String × Option Error :=
  let path := projectPath env projectName
  match env.mkdirAll path with
  | some e => ([], some e)
  | none => (path, none)

/-- `isColumn`. -/
def isColumn (p : Product) : Bool :=
  p.Type_ == ProductType.column

/-- `isVideo`. -/
def isVideo (p : Product) : Bool :=
  p.Type_ == ProductType.normalVideo || p.Type_ == ProductType.universityVideo

/-! ## Errors that end the process -/

/-- Modelled from the spec: `checkError` is declared outside `root.go`. The
specification (sections 6 and 7) has every unrecoverable error reported and the
process ended at once, and the comment "ensure chrome killed before os exit" at
its call sites says the same; a nil error lets the caller carry on. The result
is the outcome that ends the call, `none` when the caller carries on. -/
def checkError : Option Error → Option Outcome
  | some e => some (Outcome.exited e)
  | none => none

/-! ## The column batch -/

/-- The mask `b` that the loop of `handleDownloadAll` computes for an article
from the snapshot `downloaded`. -/
def existingMask (env : Env) (downloaded : List String) (a : Article) : Nat :=
  let fileName := env.filenamify a.Title
  let b := 0
  let b := if fileName ++ env.pdfExtension ∈ downloaded then setBit b 0 else b
  let b := if fileName ++ env.mdExtension ∈ downloaded then setBit b 1 else b
  let b := if fileName ++ env.mp3Extension ∈ downloaded then setBit b 2 else b
  b

/-- How one pass through a loop body ends. -/
inductive Step where
  /-- The pass ended (at its end or at `continue`); the counter is now `i`. -/
  | next (events : List Event) (i : Nat)
  /-- The pass ended the call with this outcome. -/
  | stop (events : List Event) (o : Outcome)
  deriving DecidableEq

/-- The body of the loop over the articles of a column in `handleDownloadAll`,
for article `a` with the counter at `i`. -/
def columnBody (env : Env) (downloaded : List String) (total i : Nat) (a : Article) : Step :=
  let R := env.columnOutputType
  let b := existingMask env downloaded a
  if b = R then Step.next [Event.progress (i + 1) total] (i + 1)
  else
    let needPDF : Bool := ((andNot R b) &&& 1) == 1
    let ev0 : List Event := if needPDF then [Event.printPDF a.AID] else []
    match (if needPDF then env.printPDF a.AID else none) with
    | some e => Step.stop (ev0 ++ [Event.cancel]) (Outcome.exited e)
    | none =>
      let needDownloadMD : Bool := ((andNot (R >>> 1) (b >>> 1)) &&& 1) == 1
      let needDownloadAudio : Bool := ((andNot (R >>> 2) (b >>> 2)) &&& 1) == 1
      let needInfo : Bool := needDownloadMD || needDownloadAudio
      let ev1 := if needInfo then ev0 ++ [Event.articleInfo a.AID] else ev0
      match checkError (if needInfo then env.articleInfo a.AID else none) with
      | some o => Step.stop ev1 o
      | none =>
        let err : Option Error := none
        let ev2 := if needDownloadMD then ev1 ++ [Event.markdown a.AID] else ev1
        let err := if needDownloadMD then env.markdown a.AID else err
        let ev3 := if needDownloadAudio then ev2 ++ [Event.audio a.AID] else ev2
        let err := if needDownloadAudio then env.audio a.AID else err
        match checkError err with
        | some o => Step.stop ev3 o
        | none => Step.next (ev3 ++ [Event.progress (i + 1) total, Event.jitter]) (i + 1)

/-- The loop over the articles of a column in `handleDownloadAll`: the events,
and the outcome when a pass ended the call. -/
def columnLoop (env : Env) (downloaded : List String) (total : Nat) :
    List Article → Nat → List Event × Option Outcome
  | [], _ => ([], none)
  | a :: rest, i =>
    match columnBody env downloaded total i a with
    | Step.stop es o => (es, some o)
    | Step.next es j =>
      let r := columnLoop env downloaded total rest j
      (es ++ r.1, r.2)

/-- The body of the loop over the articles of a video course in `handleDownloadAll`. -/
def videoBody (env : Env) (p : Product) (downloaded : List String) (a : Article) :
    List Event × Option Outcome :=
  let fileName := env.filenamify a.Title ++ env.tsExtension
  if fileName ∈ downloaded then ([], none)
  else if p.Type_ == ProductType.normalVideo then
    match checkError (env.videoInfo a.AID) with
    | some o => ([Event.videoInfo a.AID], some o)
    | none => ([Event.videoInfo a.AID, Event.hlsVideo a.AID], checkError (env.hlsVideo a.AID))
  else if p.Type_ == ProductType.universityVideo then
    ([Event.vodVideo a.AID], checkError (env.vodVideo a.AID))
  else ([], none)

/-- The loop over the articles of a video course in `handleDownloadAll`. -/
def videoLoop (env : Env) (p : Product) (downloaded : List String) :
    List Article → List Event × Option Outcome
  | [] => ([], none)
  | a :: rest =>
    match videoBody env p downloaded a with
    | (es, some o) => (es, some o)
    | (es, none) =>
      let r := videoLoop env p downloaded rest
      (es ++ r.1, r.2)

/-- `loadArticles`. -/
def loadArticles (env : Env) (s : State) : Option Outcome × State :=
  if s.currentProduct.Articles.length ≤ 0 then
    let r := env.getArticles s.currentProduct.ID
    let s1 := s.emit [Event.getArticles s.currentProduct.ID]
    match checkError r.2 with
    | some o => (some o, s1)
    | none => (none, { s1 with currentProduct := { s1.currentProduct with Articles := r.1 } })
  else (none, s)

/-- Whether `handleDownloadAll` starts the shared browser: the product is a
column and `columnOutputType&1 == 1`. -/
def wantsSession (env : Env) (p : Product) : Bool :=
  isColumn p && (env.columnOutputType &&& 1) == 1

/-- `handleDownloadAll` from its first line to the end of its loop: the outcome
when the call ended there, and the state. -/
def downloadAllBatch (env : Env) (s : State) : Option Outcome × State :=
  match loadArticles env s with
  | (some o, s1) => (some o, s1)
  | (none, s1) =>
    let r := mkDownloadProjectDir env s1.currentProduct.Title
    let projectDir := r.1
    let s2 := s1.emit [Event.mkdirAll (projectPath env s1.currentProduct.Title)]
    match checkError r.2 with
    | some o => (some o, s2)
    | none =>
      let d := findDownloadedArticleFileNames (env.readDir projectDir)
      let downloaded := d.1
      let s3 := s2.emit [Event.readDir projectDir]
      match checkError d.2 with
      | some o => (some o, s3)
      | none =>
        if isColumn s3.currentProduct then
          let total := s3.currentProduct.Articles.length
          let s4 := if (env.columnOutputType &&& 1) == 1 then s3.emit [Event.startBrowser] else s3
          match checkError (if (env.columnOutputType &&& 1) == 1 then env.chromeRun else none) with
          | some o => (some o, s4)
          | none =>
            let r := columnLoop env downloaded total s4.currentProduct.Articles 0
            (r.2, s4.emit r.1)
        else if isVideo s3.currentProduct then
          let r := videoLoop env s3.currentProduct downloaded s3.currentProduct.Articles
          (r.2, s3.emit r.1)
        else (none, s3)

/-- The deferred calls of `handleDownloadAll`, in the order they run when the
function returns or unwinds. -/
def deferredCalls (env : Env) (p : Product) : List Event :=
  if wantsSession env p then [Event.cancel, Event.cancel1] else []

/-! ## The single download -/

/-- The part of `downloadArticle` for a column after the document: content
information, text, audio, the final `checkError`, and the deferred calls on
return. -/
def downloadArticleRest (env : Env) (article : Article) (ev0 deferred : List Event) :
    List Event × Option Outcome :=
  let R := env.columnOutputType
  let needDownloadMD : Bool := ((R >>> 1) &&& 1) == 1
  let needDownloadAudio : Bool := ((R >>> 2) &&& 1) == 1
  let needInfo : Bool := needDownloadMD || needDownloadAudio
  let ev1 := if needInfo then ev0 ++ [Event.articleInfo article.AID] else ev0
  match checkError (if needInfo then env.articleInfo article.AID else none) with
  | some o => (ev1, some o)
  | none =>
    let err : Option Error := none
    let ev2 := if needDownloadMD then ev1 ++ [Event.markdown article.AID] else ev1
    let err := if needDownloadMD then env.markdown article.AID else err
    let ev3 := if needDownloadAudio then ev2 ++ [Event.audio article.AID] else ev2
    let err := if needDownloadAudio then env.audio article.AID else err
    match checkError err with
    | some o => (ev3, some o)
    | none => (ev3 ++ deferred, none)

/-- `downloadArticle` for the current product `p`: the events, and the outcome
when the call did not return. -/
def downloadArticle (env : Env) (p : Product) (article : Article) :
    List Event × Option Outcome :=
  if isColumn p then
    if (env.columnOutputType &&& 1) == 1 then
      match checkError env.chromeRun with
      | some o => ([Event.startBrowser], some o)
      | none =>
        match env.printPDF article.AID with
        | some e =>
          ([Event.startBrowser, Event.printPDF article.AID, Event.cancel], some (Outcome.exited e))
        | none =>
          downloadArticleRest env article [Event.startBrowser, Event.printPDF article.AID]
            [Event.cancel, Event.cancel1]
    else downloadArticleRest env article [] []
  else if isVideo p then
    if p.Type_ == ProductType.normalVideo then
      match checkError (env.videoInfo article.AID) with
      | some o => ([Event.videoInfo article.AID], some o)
      | none =>
        ([Event.videoInfo article.AID, Event.hlsVideo article.AID],
          checkError (env.hlsVideo article.AID))
    else if p.Type_ == ProductType.universityVideo then
      ([Event.vodVideo article.AID], checkError (env.vodVideo article.AID))
    else ([], none)
  else ([], none)

/-! ## Navigation -/

/-- The sentinel entry that `selectArticle` puts at the head of its list. -/
def backEntry : Article :=
  { AID := -1, Title := "返回上一级" }

/-- The navigation functions of `root.go`. They call one another without a
loop, so the model takes fuel: one unit per call. A call made in the middle of
a function body hands control back to that body when it returns; a process exit
or a panic inside it ends the caller as well. The deferred calls of
`handleDownloadAll` run when it returns and when a panic unwinds through it,
not when the process exits. A prompt or a product lookup whose script is used
up answers with an error. -/
def run (env : Env) : Nat → Call → State → Outcome × State
  | 0, _, s => (Outcome.outOfFuel, s)
  | fuel + 1, Call.selectProduct, s =>
    let s0 := s.emit [Event.enter Call.selectProduct]
    let asked : Except Error String × State :=
      if env.productID = "" then
        match promptProductID s0.idLines with
        | (Except.ok l, ls) => (Except.ok l, { s0 with idLines := ls, trace := s0.trace ++ [Event.promptID l] })
        | (Except.error e, ls) => (Except.error e, { s0 with idLines := ls })
      else (Except.ok env.productID, s0)
    match asked with
    | (Except.error e, s1) => (Outcome.exited e, s1)
    | (Except.ok sproduct, s1) =>
      let id := (atoi sproduct).1
      match run env fuel (Call.loadProduct id) s1 with
      | (Outcome.returned, s2) =>
        if env.downloadAll then run env fuel Call.handleDownloadAll s2
        else run env fuel Call.productOps s2
      | r => r
  | fuel + 1, Call.productOps, s =>
    let s0 := s.emit [Event.enter Call.productOps]
    match promptSelect 3 s0.picks with
    | (Except.error e, ks) => (Outcome.exited e, { s0 with picks := ks })
    | (Except.ok index, ks) =>
      let s1 := { s0 with picks := ks, trace := s0.trace ++ [Event.promptSelect index] }
      match index with
      | 0 => run env fuel Call.selectProduct s1
      | 1 => run env fuel Call.handleDownloadAll s1
      | 2 => run env fuel Call.selectArticle s1
      | _ => (Outcome.returned, s1)
  | fuel + 1, Call.selectArticle, s =>
    let s0 := s.emit [Event.enter Call.selectArticle]
    match loadArticles env s0 with
    | (some o, s1) => (o, s1)
    | (none, s1) =>
      let items := backEntry :: s1.currentProduct.Articles
      match promptSelect items.length s1.picks with
      | (Except.error e, ks) => (Outcome.exited e, { s1 with picks := ks })
      | (Except.ok index, ks) =>
        run env fuel (Call.handleSelectArticle index)
          { s1 with picks := ks, trace := s1.trace ++ [Event.promptSelect index] }
  | fuel + 1, Call.handleSelectArticle index, s =>
    let s0 := s.emit [Event.enter (Call.handleSelectArticle index)]
    let back : Outcome × State :=
      if index = 0 then run env fuel Call.productOps s0 else (Outcome.returned, s0)
    match back with
    | (Outcome.returned, s1) =>
      let s2 := s1.emit [Event.lookup ((index : Int) - 1)]
      match (if index = 0 then none else s2.currentProduct.Articles.get? (index - 1)) with
      | none => (Outcome.panicked, s2)
      | some a =>
        let r := mkDownloadProjectDir env s2.currentProduct.Title
        let s3 := s2.emit [Event.mkdirAll (projectPath env s2.currentProduct.Title)]
        match checkError r.2 with
        | some o => (o, s3)
        | none =>
          match downloadArticle env s3.currentProduct a with
          | (es, some o) => (o, s3.emit es)
          | (es, none) =>
            run env fuel Call.selectArticle (s3.emit (es ++ [Event.finishedOne a.Title]))
    | r => r
  | fuel + 1, Call.handleDownloadAll, s =>
    let s0 := s.emit [Event.enter Call.handleDownloadAll]
    match downloadAllBatch env s0 with
    | (some o, s1) => (o, s1)
    | (none, s1) =>
      let deferred := deferredCalls env s1.currentProduct
      if env.productID ≠ "" then (Outcome.returned, s1.emit (Event.finishedAll :: deferred))
      else
        match run env fuel Call.selectProduct s1 with
        | (Outcome.returned, s2) => (Outcome.returned, s2.emit deferred)
        | (Outcome.panicked, s2) => (Outcome.panicked, s2.emit deferred)
        | r => r
  | fuel + 1, Call.loadProduct productID, s =>
    let s0 := s.emit [Event.enter (Call.loadProduct productID), Event.getProduct env.university productID]
    match s0.catalog with
    | [] => (Outcome.exited "EOF", s0)
    | (p, err) :: rest =>
      let s1 := { s0 with catalog := rest }
      match checkError err with
      | some o => (o, s1)
      | none =>
        let nested : Outcome × State :=
          if !p.Access then run env fuel Call.selectProduct (s1.emit [Event.denied])
          else (Outcome.returned, s1)
        match nested with
        | (Outcome.returned, s2) =>
          (Outcome.returned, { s2 with currentProduct := p, trace := s2.trace ++ [Event.install p] })
        | r => r

/-! ## Reading a trace -/

/-- The events of one pass through the loop body. -/
def Step.events : Step → List Event
  | Step.next es _ => es
  | Step.stop es _ => es

/-- The calls of the three content engines of a column: document render, text
extraction, audio fetch. -/
def isEngineCall : Event → Bool
  | Event.printPDF _ => true
  | Event.markdown _ => true
  | Event.audio _ => true
  | _ => false

/-- The engine calls of a trace, in order. -/
def engineCalls (es : List Event) : List Event :=
  es.filter isEngineCall

/-- Every call to a collaborator that fetches or renders content: the three
engines and the content-information lookup. -/
def isRemoteCall : Event → Bool
  | Event.articleInfo _ => true
  | e => isEngineCall e

/-- The engine calls that the specification assigns to a format mask for one
article: document render for bit 0, text extraction for bit 1, audio fetch for
bit 2. -/
def callsOfMask (m : Nat) (aid : Int) : List Event :=
  (if m &&& 1 = 1 then [Event.printPDF aid] else []) ++
  ((if (m >>> 1) &&& 1 = 1 then [Event.markdown aid] else []) ++
   (if (m >>> 2) &&& 1 = 1 then [Event.audio aid] else []))

/-! ## Concrete inputs -/

/-- An environment with an empty project directory in which every external
call succeeds; the document format is requested and no product identity is
pre-supplied. -/
def quietEnv : Env :=
  { phone := "u", gcid := "", downloadFolder := "d", productID := "", downloadAll := true,
    university := false, columnOutputType := 1, filenamify := fun t => t,
    pdfExtension := ".pdf", mdExtension := ".md", mp3Extension := ".mp3", tsExtension := ".ts",
    mkdirAll := fun _ => none, readDir := fun _ => ([], none), getArticles := fun _ => ([], none),
    chromeRun := none, printPDF := fun _ => none, articleInfo := fun _ => none,
    markdown := fun _ => none, audio := fun _ => none, videoInfo := fun _ => none,
    hlsVideo := fun _ => none, vodVideo := fun _ => none }

/-- An article titled `t`. -/
def art1 : Article :=
  { AID := 1, Title := "t" }

/-- An article titled `v`. -/
def art2 : Article :=
  { AID := 2, Title := "v" }

/-- A purchased column with the single article `art1`. -/
def col1 : Product :=
  { ID := 7, Title := "c", Type_ := ProductType.column, Access := true, Articles := [art1] }

/-- A column that was not purchased, as the catalog returns it: no articles yet. -/
def colDenied : Product :=
  { ID := 7, Title := "c", Type_ := ProductType.column, Access := false, Articles := [] }

/-- The state in which `Run` calls `selectProduct`. -/
def start (catalog : List (Product × Option Error)) (picks : List Nat) (idLines : List String) :
    State :=
  { currentProduct := Product.zero, idLines := idLines, picks := picks, catalog := catalog,
    trace := [] }

/-- Text and audio requested; the text extraction of `art1` fails, every other
call succeeds. -/
def textFailsEnv : Env :=
  { quietEnv with
    columnOutputType := 6
    markdown := fun aid => if aid = 1 then some "text extraction failed" else none }

/-- Document and audio requested; the directory read lists the document of `art1`. -/
def resumeEnv : Env :=
  { quietEnv with columnOutputType := 5 }

/-- Product identity `7` pre-supplied, the product menu enabled. -/
def menuEnv : Env :=
  { quietEnv with productID := "7", downloadAll := false }

/-- Product identity `7` pre-supplied, batch-all enabled; the article list of a
product comes from the catalog as `[art2]`. -/
def batchEnv : Env :=
  { quietEnv with productID := "7", downloadAll := true, getArticles := fun _ => ([art2], none) }

/-- Document and text requested; the content-information lookup fails. -/
def lookupFailsEnv : Env :=
  { quietEnv with columnOutputType := 3, articleInfo := fun _ => some "lookup failed" }

/-- The flag `productID` set to a string that is not a number. -/
def badFlagEnv : Env :=
  { quietEnv with productID := "abc" }

/-- Only the document requested; the directory read lists the document and the
text of `art1`. -/
def supersetEnv : Env :=
  { quietEnv with readDir := fun _ => (["t.pdf", "t.md"], none) }

/-- Only the document requested; the directory read lists the document of `art1`. -/
def documentOnDiskEnv : Env :=
  { quietEnv with readDir := fun _ => (["t.pdf"], none) }

/-- The state `start` with `col1` as the current product. -/
def atCol1 : State :=
  { start [] [] [] with currentProduct := col1 }

/-- Document and audio requested, as `resumeEnv`; the content-information
lookup fails. -/
def resumeLookupFailsEnv : Env :=
  { quietEnv with columnOutputType := 5, articleInfo := fun _ => some "lookup failed" }

/-- Document and text requested; the document render fails. -/
def renderFailsEnv : Env :=
  { quietEnv with columnOutputType := 3, printPDF := fun _ => some "render failed" }

/-- The project directory cannot be created. -/
def mkdirFailsEnv : Env :=
  { quietEnv with mkdirAll := fun _ => some "permission denied" }

/-- The project directory cannot be read. -/
def unreadableEnv : Env :=
  { quietEnv with readDir := fun _ => ([], some "no such file or directory") }

/-- The scripts of the user and of the catalog are the same in both states. -/
def State.sameScripts (s t : State) : Prop :=
  t.picks = s.picks ∧ t.idLines = s.idLines ∧ t.catalog = s.catalog

/-! ## Supporting lemmas -/

theorem loadArticles_scripts (env : Env) (s : State) : s.sameScripts (loadArticles env s).2 := by
  unfold loadArticles
  split
  · dsimp only
    split
    · exact ⟨rfl, rfl, rfl⟩
    · exact ⟨rfl, rfl, rfl⟩
  · exact ⟨rfl, rfl, rfl⟩

theorem downloadAllBatch_scripts (env : Env) (s : State) :
    s.sameScripts (downloadAllBatch env s).2 := by
  have hl := loadArticles_scripts env s
  unfold downloadAllBatch
  split
  · next o s1 h => rw [h] at hl; exact hl
  · next s1 h =>
    rw [h] at hl
    dsimp only at hl ⊢
    split
    · exact hl
    · split
      · exact hl
      · split
        · split
          · split <;> exact hl
          · split <;> exact hl
        · split <;> exact hl

/-! ## What holds of fail-fast and of the skip of complete items -/

/-- A pass for an article whose requested formats are all in the snapshot makes
no engine call and no content-information lookup, and ends with the counter
advanced. -/
theorem columnBody_complete_no_remote (env : Env) (downloaded : List String) (total i : Nat)
    (a : Article) (hR7 : env.columnOutputType ≤ 7)
    (hm : missing env.columnOutputType (existingMask env downloaded a) = 0) :
    ∃ es, columnBody env downloaded total i a = Step.next es (i + 1) ∧
      es.filter isRemoteCall = [] := by
  unfold columnBody
  unfold existingMask at hm ⊢
  generalize env.columnOutputType = R at *
  by_cases h0 : env.filenamify a.Title ++ env.pdfExtension ∈ downloaded <;>
  by_cases h1 : env.filenamify a.Title ++ env.mdExtension ∈ downloaded <;>
  by_cases h2 : env.filenamify a.Title ++ env.mp3Extension ∈ downloaded <;>
  interval_cases R <;>
  simp +decide [h0, h1, h2, setBit, andNot, missing, checkError, isRemoteCall, isEngineCall] at hm ⊢

/-- A batch over articles whose requested formats are all in the snapshot makes
no engine call and no content-information lookup, and runs to its end. -/
theorem columnLoop_complete_no_remote (env : Env) (downloaded : List String) (total : Nat)
    (hR7 : env.columnOutputType ≤ 7) (articles : List Article) :
    ∀ i, (∀ a ∈ articles, missing env.columnOutputType (existingMask env downloaded a) = 0) →
      (columnLoop env downloaded total articles i).1.filter isRemoteCall = [] ∧
      (columnLoop env downloaded total articles i).2 = none := by
  induction articles with
  | nil => intro i _; exact ⟨rfl, rfl⟩
  | cons a rest ih =>
    intro i h
    obtain ⟨es, hes, hnone⟩ :=
      columnBody_complete_no_remote env downloaded total i a hR7 (h a (List.mem_cons_self _ _))
    have := ih (i + 1) (fun b hb => h b (List.mem_cons_of_mem _ hb))
    simp only [columnLoop, hes, List.filter_append, hnone, this.1, this.2]
    exact ⟨rfl, trivial⟩

/-- The errors that do end a pass of the loop body. When the document render is
dispatched and fails, when the content-information lookup is dispatched and
fails, when the audio fetch is dispatched and fails, or when the text extraction
is dispatched and fails and no audio fetch follows it, the pass ends the process
without a progress line. -/
theorem columnBody_failfast (env : Env) (downloaded : List String) (total i : Nat)
    (a : Article)
    (h : (Event.printPDF a.AID ∈ (columnBody env downloaded total i a).events ∧
          env.printPDF a.AID ≠ none) ∨
        (Event.articleInfo a.AID ∈ (columnBody env downloaded total i a).events ∧
          env.articleInfo a.AID ≠ none) ∨
        (Event.audio a.AID ∈ (columnBody env downloaded total i a).events ∧
          env.audio a.AID ≠ none) ∨
        (Event.markdown a.AID ∈ (columnBody env downloaded total i a).events ∧
          Event.audio a.AID ∉ (columnBody env downloaded total i a).events ∧
          env.markdown a.AID ≠ none)) :
    ∃ es e, columnBody env downloaded total i a = Step.stop es (Outcome.exited e) ∧
      ∀ j t, Event.progress j t ∉ es := by
  unfold columnBody at h ⊢
  generalize existingMask env downloaded a = b at *
  generalize env.columnOutputType = R at *
  by_cases hb : b = R
  · simp [hb, Step.events] at h
  · simp only [hb, if_false] at h ⊢
    generalize (((andNot R b) &&& 1) == 1) = needPDF at *
    generalize (((andNot (R >>> 1) (b >>> 1)) &&& 1) == 1) = needMD at *
    generalize (((andNot (R >>> 2) (b >>> 2)) &&& 1) == 1) = needAudio at *
    cases needPDF <;> cases needMD <;> cases needAudio <;>
    cases hp : env.printPDF a.AID <;> cases hi : env.articleInfo a.AID <;>
    cases hm : env.markdown a.AID <;> cases ha : env.audio a.AID <;>
    simp [hp, hi, hm, ha, checkError, Step.events] at h ⊢

/-- A pass that ends the process ends the loop: nothing is dispatched for the
articles after it. -/
theorem columnLoop_stops (env : Env) (downloaded : List String) (total i : Nat) (a : Article)
    (rest : List Article) (es : List Event) (o : Outcome)
    (h : columnBody env downloaded total i a = Step.stop es o) :
    columnLoop env downloaded total (a :: rest) i = (es, some o) := by
  simp [columnLoop, h]

/-! ## C1: an engine error that is lost -/

/-- C1, evaluated where the code departs from the claim: with text and audio
requested and nothing on disk, the text extraction of the first article fails
and its audio fetch succeeds; the loop counts the article as completed, sleeps,
and goes on to dispatch every call of the second article, and the batch ends
without an error. -/
theorem columnLoop_text_error_overwritten :
    textFailsEnv.markdown art1.AID = some "text extraction failed" ∧
    textFailsEnv.audio art1.AID = none ∧
    columnLoop textFailsEnv [] 2 [art1, art2] 0 =
      ([Event.articleInfo 1, Event.markdown 1, Event.audio 1, Event.progress 1 2, Event.jitter,
        Event.articleInfo 2, Event.markdown 2, Event.audio 2, Event.progress 2 2, Event.jitter],
       none) := by
  refine ⟨rfl, rfl, ?_⟩
  decide

/-! ## C2: the calls of one item are the bits of `R & ~E` -/

/-- The mask that the loop body computes has three bits. -/
theorem existingMask_le (env : Env) (downloaded : List String) (a : Article) :
    existingMask env downloaded a ≤ 7 := by
  unfold existingMask
  by_cases h0 : env.filenamify a.Title ++ env.pdfExtension ∈ downloaded <;>
  by_cases h1 : env.filenamify a.Title ++ env.mdExtension ∈ downloaded <;>
  by_cases h2 : env.filenamify a.Title ++ env.mp3Extension ∈ downloaded <;>
  simp +decide [h0, h1, h2, setBit]

/-- The three tests of the loop body read the bits of `R & ~E`, and a mask equal
to the requested one leaves nothing missing. -/
theorem need_flags (R b : Nat) (hR : R ≤ 7) (hb : b ≤ 7) :
    (((andNot R b) &&& 1) == 1) = decide (missing R b &&& 1 = 1) ∧
    (((andNot (R >>> 1) (b >>> 1)) &&& 1) == 1) = decide ((missing R b >>> 1) &&& 1 = 1) ∧
    (((andNot (R >>> 2) (b >>> 2)) &&& 1) == 1) = decide ((missing R b >>> 2) &&& 1 = 1) ∧
    (b = R → missing R b = 0) := by
  interval_cases R <;> interval_cases b <;> decide

/-- The calls of a mask, with the three bit tests as Boolean values. -/
theorem callsOfMask_flags (m : Nat) (aid : Int) :
    callsOfMask m aid =
      (bif decide (m &&& 1 = 1) then [Event.printPDF aid] else []) ++
      ((bif decide ((m >>> 1) &&& 1 = 1) then [Event.markdown aid] else []) ++
       (bif decide ((m >>> 2) &&& 1 = 1) then [Event.audio aid] else [])) := by
  simp only [callsOfMask, Bool.cond_decide]

/-- The engine calls of one pass of the loop body: always an initial part of the
calls for the bits of `R & ~E`, and all of them when the document render and the
content-information lookup return no error. -/
theorem columnBody_engineCalls (env : Env) (downloaded : List String) (total i : Nat)
    (a : Article) (hR7 : env.columnOutputType ≤ 7) :
    engineCalls (columnBody env downloaded total i a).events <+:
      callsOfMask (missing env.columnOutputType (existingMask env downloaded a)) a.AID ∧
    (env.printPDF a.AID = none → env.articleInfo a.AID = none →
      engineCalls (columnBody env downloaded total i a).events =
        callsOfMask (missing env.columnOutputType (existingMask env downloaded a)) a.AID) := by
  have hb := existingMask_le env downloaded a
  unfold columnBody
  generalize existingMask env downloaded a = b at *
  generalize env.columnOutputType = R at *
  obtain ⟨f0, f1, f2, fz⟩ := need_flags R b hR7 hb
  by_cases hbR : b = R
  · rw [fz hbR]
    simp only [hbR, if_true]
    exact ⟨List.prefix_refl _, fun _ _ => rfl⟩
  · simp only [hbR, if_false]
    rw [f0, f1, f2, callsOfMask_flags]
    generalize decide (missing R b &&& 1 = 1) = p0
    generalize decide ((missing R b >>> 1) &&& 1 = 1) = p1
    generalize decide ((missing R b >>> 2) &&& 1 = 1) = p2
    cases p0 <;> cases p1 <;> cases p2 <;>
    cases hp : env.printPDF a.AID <;> cases hi : env.articleInfo a.AID <;>
    cases hm : env.markdown a.AID <;> cases ha : env.audio a.AID <;>
    simp [checkError, engineCalls, isEngineCall, Step.events]

/-- C2, the claim fails as stated: document and audio are requested and the
document is on disk, so `E = 1` and `R & ~E` has the audio bit set; the
content-information lookup fails, the process ends there, and no audio fetch is
dispatched. -/
theorem columnBody_lookup_error_cuts_dispatch :
    resumeLookupFailsEnv.columnOutputType = 5 ∧
    existingMask resumeLookupFailsEnv ["t.pdf"] art1 = 1 ∧
    callsOfMask (missing 5 1) 1 = [Event.audio 1] ∧
    columnBody resumeLookupFailsEnv ["t.pdf"] 1 0 art1 =
      Step.stop [Event.articleInfo 1] (Outcome.exited "lookup failed") ∧
    engineCalls (columnBody resumeLookupFailsEnv ["t.pdf"] 1 0 art1).events = [] := by
  refine ⟨rfl, ?_, ?_, ?_, ?_⟩ <;> decide

/-- C2 as amended: for a requested mask between 1 and 7, the mask `E` that the
loop body computes from the snapshot is at most 7 and has bit 0, 1, 2 set
exactly when the document, text, audio file of the article is in the snapshot;
the engine calls dispatched for the article are always an initial part of the
calls for the set bits of `R & ~E` (document render, text extraction, audio
fetch, in that order), and they are exactly those calls when the document
render and the content-information lookup of the article return no error; for
`R = 5`, `E = 1` and a lookup without error that is the audio fetch alone. -/
theorem columnBody_dispatches_missing (env : Env) (downloaded : List String) (total i : Nat)
    (a : Article) (_hR1 : 1 ≤ env.columnOutputType) (hR7 : env.columnOutputType ≤ 7) :
    existingMask env downloaded a ≤ 7 ∧
    (existingMask env downloaded a &&& 1 = 1 ↔
      env.filenamify a.Title ++ env.pdfExtension ∈ downloaded) ∧
    ((existingMask env downloaded a >>> 1) &&& 1 = 1 ↔
      env.filenamify a.Title ++ env.mdExtension ∈ downloaded) ∧
    ((existingMask env downloaded a >>> 2) &&& 1 = 1 ↔
      env.filenamify a.Title ++ env.mp3Extension ∈ downloaded) ∧
    engineCalls (columnBody env downloaded total i a).events <+:
      callsOfMask (missing env.columnOutputType (existingMask env downloaded a)) a.AID ∧
    (env.printPDF a.AID = none → env.articleInfo a.AID = none →
      engineCalls (columnBody env downloaded total i a).events =
        callsOfMask (missing env.columnOutputType (existingMask env downloaded a)) a.AID) ∧
    (env.articleInfo a.AID = none →
      env.columnOutputType = 5 → existingMask env downloaded a = 1 →
      engineCalls (columnBody env downloaded total i a).events = [Event.audio a.AID]) := by
  have key := columnBody_engineCalls env downloaded total i a hR7
  refine ⟨existingMask_le env downloaded a, ?_, ?_, ?_, key.1, key.2, ?_⟩
  · unfold existingMask
    by_cases h0 : env.filenamify a.Title ++ env.pdfExtension ∈ downloaded <;>
    by_cases h1 : env.filenamify a.Title ++ env.mdExtension ∈ downloaded <;>
    by_cases h2 : env.filenamify a.Title ++ env.mp3Extension ∈ downloaded <;>
    simp +decide [h0, h1, h2, setBit]
  · unfold existingMask
    by_cases h0 : env.filenamify a.Title ++ env.pdfExtension ∈ downloaded <;>
    by_cases h1 : env.filenamify a.Title ++ env.mdExtension ∈ downloaded <;>
    by_cases h2 : env.filenamify a.Title ++ env.mp3Extension ∈ downloaded <;>
    simp +decide [h0, h1, h2, setBit]
  · unfold existingMask
    by_cases h0 : env.filenamify a.Title ++ env.pdfExtension ∈ downloaded <;>
    by_cases h1 : env.filenamify a.Title ++ env.mdExtension ∈ downloaded <;>
    by_cases h2 : env.filenamify a.Title ++ env.mp3Extension ∈ downloaded <;>
    simp +decide [h0, h1, h2, setBit]
  · intro hi h5 hE
    unfold columnBody
    rw [hE, h5]
    cases ha : env.audio a.AID <;>
    simp +decide [andNot, hi, ha, checkError, engineCalls, isEngineCall, Step.events]

/-- C2 as amended, at a concrete input: document and audio requested, the
document of the article on disk; the existing mask is 1 and only the audio fetch
is dispatched. -/
theorem columnBody_dispatches_missing_witness :
    (1 ≤ resumeEnv.columnOutputType ∧ resumeEnv.columnOutputType ≤ 7) ∧
    existingMask resumeEnv ["t.pdf"] art1 = 1 ∧
    engineCalls (columnBody resumeEnv ["t.pdf"] 1 0 art1).events = [Event.audio 1] :=
  ⟨by decide, by decide,
    (columnBody_dispatches_missing resumeEnv ["t.pdf"] 1 0 art1 (by decide)
      (by decide)).2.2.2.2.2.2 rfl rfl (by decide)⟩

/-! ## C3: a jitter delay for an item with nothing to download -/

/-- C3, evaluated where the code departs from the claim: only the document is
requested and the directory holds the document and the text of the article, so
`R & ~E = 0`; the batch makes no engine call, yet the item is followed by a
jitter delay, because the loop skips an item only when `E` equals `R`. -/
theorem columnLoop_jitter_on_extra_bits :
    supersetEnv.columnOutputType = 1 ∧
    existingMask supersetEnv ["t.pdf", "t.md"] art1 = 3 ∧
    missing 1 3 = 0 ∧
    columnLoop supersetEnv ["t.pdf", "t.md"] 1 [art1] 0 =
      ([Event.progress 1 1, Event.jitter], none) ∧
    downloadAllBatch supersetEnv { start [] [] [] with currentProduct := col1 } =
      (none, { start [] [] [] with
        currentProduct := col1
        trace := [Event.mkdirAll ["d", "u", "c"], Event.readDir ["d", "u", "c"],
          Event.startBrowser, Event.progress 1 1, Event.jitter] }) := by
  refine ⟨rfl, ?_, ?_, ?_, ?_⟩ <;> decide

/-! ## C4: the back entry of the article list -/

/-- C4, evaluated where the code departs from the claim: with the product
identity pre-supplied the user opens the article list, selects the back entry,
and chooses "download all" in the product menu; when the batch has returned,
`handleSelectArticle` goes on to the index expression with index -1 and the
program panics. -/
theorem handleSelectArticle_back_entry_falls_through :
    run menuEnv 6 Call.selectProduct (start [(col1, none)] [2, 0, 1] []) =
      (Outcome.panicked,
        { currentProduct := col1, idLines := [], picks := [], catalog := [],
          trace := [Event.enter Call.selectProduct, Event.enter (Call.loadProduct 7),
            Event.getProduct false 7, Event.install col1,
            Event.enter Call.productOps, Event.promptSelect 2,
            Event.enter Call.selectArticle, Event.promptSelect 0,
            Event.enter (Call.handleSelectArticle 0),
            Event.enter Call.productOps, Event.promptSelect 1,
            Event.enter Call.handleDownloadAll,
            Event.mkdirAll ["d", "u", "c"], Event.readDir ["d", "u", "c"],
            Event.startBrowser, Event.printPDF 1, Event.progress 1 1, Event.jitter,
            Event.finishedAll, Event.cancel, Event.cancel1,
            Event.lookup (-1)] }) := by
  decide

/-! ## C5: a product without access -/

/-- C5, evaluated where the code departs from the claim: the identity is
pre-supplied, the catalog first answers with a product without access and then
with a purchased one; when the batch of the purchased product has returned,
`loadProduct` installs the product without access as the current product and
`selectProduct` runs a second batch on it. -/
theorem loadProduct_installs_denied_product :
    colDenied.Access = false ∧
    run batchEnv 6 Call.selectProduct (start [(colDenied, none), (col1, none)] [] []) =
      (Outcome.returned,
        { currentProduct := { colDenied with Articles := [art2] },
          idLines := [], picks := [], catalog := [],
          trace := [Event.enter Call.selectProduct, Event.enter (Call.loadProduct 7),
            Event.getProduct false 7, Event.denied,
            Event.enter Call.selectProduct, Event.enter (Call.loadProduct 7),
            Event.getProduct false 7, Event.install col1,
            Event.enter Call.handleDownloadAll,
            Event.mkdirAll ["d", "u", "c"], Event.readDir ["d", "u", "c"],
            Event.startBrowser, Event.printPDF 1, Event.progress 1 1, Event.jitter,
            Event.finishedAll, Event.cancel, Event.cancel1,
            Event.install colDenied,
            Event.enter Call.handleDownloadAll, Event.getArticles 7,
            Event.mkdirAll ["d", "u", "c"], Event.readDir ["d", "u", "c"],
            Event.startBrowser, Event.printPDF 2, Event.progress 1 1, Event.jitter,
            Event.finishedAll, Event.cancel, Event.cancel1] }) := by
  refine ⟨rfl, ?_⟩
  decide

/-! ## C6: the shared browser on the paths that end the process -/

/-- C6, evaluated where the code departs from the claim: document and text are
requested, the document render succeeds and the content-information lookup
fails; the process ends with the browser started once and `cancel` never
called. -/
theorem handleDownloadAll_lookup_error_skips_cancel :
    run lookupFailsEnv 1 Call.handleDownloadAll { start [] [] [] with currentProduct := col1 } =
      (Outcome.exited "lookup failed",
        { start [] [] [] with
          currentProduct := col1
          trace := [Event.enter Call.handleDownloadAll,
            Event.mkdirAll ["d", "u", "c"], Event.readDir ["d", "u", "c"],
            Event.startBrowser, Event.printPDF 1, Event.articleInfo 1] }) ∧
    (run lookupFailsEnv 1 Call.handleDownloadAll
        { start [] [] [] with currentProduct := col1 }).2.trace.count Event.startBrowser = 1 ∧
    (run lookupFailsEnv 1 Call.handleDownloadAll
        { start [] [] [] with currentProduct := col1 }).2.trace.count Event.cancel = 0 := by
  refine ⟨?_, ?_, ?_⟩ <;> decide

/-! ## C7: a directory that cannot be read -/

/-- C7, the claim fails: a failed directory read comes back from
`findDownloadedArticleFileNames` with its error, and `handleDownloadAll` ends
the process on it. -/
theorem findDownloadedArticleFileNames_returns_read_error :
    findDownloadedArticleFileNames ([], some "no such file or directory") =
      ([], some "no such file or directory") ∧
    (downloadAllBatch unreadableEnv { start [] [] [] with currentProduct := col1 }).1 =
      some (Outcome.exited "no such file or directory") := by
  refine ⟨?_, ?_⟩ <;> decide

/-- C7 as amended: when the directory read fails, `findDownloadedArticleFileNames`
returns the empty name set, against which every article has the existing mask 0,
together with the error of the read, whatever entries came with it; when the
read succeeds the error is nil and the names are those of the entries. In
`handleDownloadAll`, once the article list is loaded, the directory is read only
after `mkDownloadProjectDir` has created it without an error: an error of
`MkdirAll` ends the process before the read, and an error of the read ends the
process right after the read, before any article is examined. -/
theorem findDownloadedArticleFileNames_spec (env : Env) (files : List String) (e : Error)
    (fuel : Nat) (s s1 : State) :
    findDownloadedArticleFileNames (files, some e) = ([], some e) ∧
    (∀ a, existingMask env (findDownloadedArticleFileNames (files, some e)).1 a = 0) ∧
    (findDownloadedArticleFileNames (files, none)).2 = none ∧
    (∀ f, f ∈ (findDownloadedArticleFileNames (files, none)).1 ↔ f ∈ files) ∧
    (loadArticles env (s.emit [Event.enter Call.handleDownloadAll]) = (none, s1) →
      env.mkdirAll (projectPath env s1.currentProduct.Title) = none →
      env.readDir (projectPath env s1.currentProduct.Title) = (files, some e) →
      run env (fuel + 1) Call.handleDownloadAll s =
        (Outcome.exited e,
          s1.emit [Event.mkdirAll (projectPath env s1.currentProduct.Title),
            Event.readDir (projectPath env s1.currentProduct.Title)])) ∧
    (loadArticles env (s.emit [Event.enter Call.handleDownloadAll]) = (none, s1) →
      env.mkdirAll (projectPath env s1.currentProduct.Title) = some e →
      run env (fuel + 1) Call.handleDownloadAll s =
        (Outcome.exited e,
          s1.emit [Event.mkdirAll (projectPath env s1.currentProduct.Title)])) := by
  have hfold : ∀ (l acc : List String) (f : String),
      f ∈ l.foldl (fun acc f => if f ∈ acc then acc else acc ++ [f]) acc ↔ f ∈ acc ∨ f ∈ l := by
    intro l
    induction l with
    | nil => intro acc f; simp
    | cons x xs ih =>
      intro acc f
      rw [List.foldl_cons, ih]
      by_cases hx : x ∈ acc
      · simp only [hx, if_true, List.mem_cons]
        constructor
        · rintro (h | h)
          · exact Or.inl h
          · exact Or.inr (Or.inr h)
        · rintro (h | h | h)
          · exact Or.inl h
          · exact Or.inl (h ▸ hx)
          · exact Or.inr h
      · simp only [hx, if_false, List.mem_append, List.mem_singleton, List.mem_cons]
        tauto
  refine ⟨rfl, ?_, ?_, ?_, ?_, ?_⟩
  · intro a
    simp [findDownloadedArticleFileNames, existingMask]
  · simp only [findDownloadedArticleFileNames]
    split
    · rename_i h; simp at h
    · split <;> rfl
  · intro f
    simp only [findDownloadedArticleFileNames]
    split
    · rename_i h; simp at h
    · split
      · rename_i h
        have : files = [] := List.length_eq_zero.mp h
        simp [this]
      · rw [hfold]; simp
  · intro hl hmk hrd
    have hb : downloadAllBatch env (s.emit [Event.enter Call.handleDownloadAll]) =
        (some (Outcome.exited e),
          s1.emit [Event.mkdirAll (projectPath env s1.currentProduct.Title),
            Event.readDir (projectPath env s1.currentProduct.Title)]) := by
      unfold downloadAllBatch
      rw [hl]
      simp [mkDownloadProjectDir, hmk, hrd, checkError, findDownloadedArticleFileNames,
        State.emit]
    simp [run, hb]
  · intro hl hmk
    have hb : downloadAllBatch env (s.emit [Event.enter Call.handleDownloadAll]) =
        (some (Outcome.exited e),
          s1.emit [Event.mkdirAll (projectPath env s1.currentProduct.Title)]) := by
      unfold downloadAllBatch
      rw [hl]
      simp [mkDownloadProjectDir, hmk, checkError]
    simp [run, hb]

/-- C7 as amended, at concrete inputs: a batch over `col1` whose directory
cannot be read ends the process after the read, and one whose directory cannot
be created ends it before the read. -/
theorem findDownloadedArticleFileNames_spec_witness :
    run unreadableEnv 1 Call.handleDownloadAll atCol1 =
      (Outcome.exited "no such file or directory",
        { atCol1 with
          trace := [Event.enter Call.handleDownloadAll,
            Event.mkdirAll ["d", "u", "c"], Event.readDir ["d", "u", "c"]] }) ∧
    run mkdirFailsEnv 1 Call.handleDownloadAll atCol1 =
      (Outcome.exited "permission denied",
        { atCol1 with
          trace := [Event.enter Call.handleDownloadAll, Event.mkdirAll ["d", "u", "c"]] }) :=
  ⟨(findDownloadedArticleFileNames_spec unreadableEnv [] "no such file or directory" 0 atCol1
      { atCol1 with trace := [Event.enter Call.handleDownloadAll] }).2.2.2.2.1
      (by decide) (by decide) (by decide),
   (findDownloadedArticleFileNames_spec mkdirFailsEnv [] "permission denied" 0 atCol1
      { atCol1 with trace := [Event.enter Call.handleDownloadAll] }).2.2.2.2.2
      (by decide) (by decide)⟩

/-! ## C8: what follows a completed download -/

/-- C8, the claim fails for a single article: with the product identity
pre-supplied the user downloads the first article from the article list; the
program does not end but enters `selectArticle` again, takes a second choice
there, downloads again, and asks a third time. -/
theorem handleSelectArticle_asks_again_with_productID :
    menuEnv.productID = "7" ∧
    run menuEnv 8 Call.selectProduct (start [(col1, none)] [2, 1, 1] []) =
      (Outcome.exited "EOF",
        { currentProduct := col1, idLines := [], picks := [], catalog := [],
          trace := [Event.enter Call.selectProduct, Event.enter (Call.loadProduct 7),
            Event.getProduct false 7, Event.install col1,
            Event.enter Call.productOps, Event.promptSelect 2,
            Event.enter Call.selectArticle, Event.promptSelect 1,
            Event.enter (Call.handleSelectArticle 1), Event.lookup 0,
            Event.mkdirAll ["d", "u", "c"],
            Event.startBrowser, Event.printPDF 1, Event.cancel, Event.cancel1,
            Event.finishedOne "t",
            Event.enter Call.selectArticle, Event.promptSelect 1,
            Event.enter (Call.handleSelectArticle 1), Event.lookup 0,
            Event.mkdirAll ["d", "u", "c"],
            Event.startBrowser, Event.printPDF 1, Event.cancel, Event.cancel1,
            Event.finishedOne "t",
            Event.enter Call.selectArticle] }) := by
  refine ⟨rfl, ?_⟩
  decide

/-- C8 as amended. After a completed full batch: with a pre-supplied product
identity `handleDownloadAll` returns to its caller, having read nothing from the
user since it was entered, and when it was entered straight from the top-level
`selectProduct` that call returns as well, which ends the program; without a
pre-supplied identity the call continues as `selectProduct` and ends as that
call ends. After a completed single article `handleSelectArticle` continues as
`selectArticle`, whether or not a product identity was pre-supplied. -/
theorem completed_download_next_state (env : Env) (fuel : Nat) (s : State) :
    (∀ s1, downloadAllBatch env (s.emit [Event.enter Call.handleDownloadAll]) = (none, s1) →
      env.productID ≠ "" →
      run env (fuel + 1) Call.handleDownloadAll s =
        (Outcome.returned, s1.emit (Event.finishedAll :: deferredCalls env s1.currentProduct)) ∧
      s1.picks = s.picks ∧ s1.idLines = s.idLines) ∧
    (∀ p rest s1, s.catalog = (p, none) :: rest → p.Access = true →
      env.productID ≠ "" → env.downloadAll = true →
      downloadAllBatch env
        { s with
          currentProduct := p
          catalog := rest
          trace := s.trace ++ [Event.enter Call.selectProduct,
            Event.enter (Call.loadProduct (atoi env.productID).1),
            Event.getProduct env.university (atoi env.productID).1, Event.install p,
            Event.enter Call.handleDownloadAll] } = (none, s1) →
      run env (fuel + 2) Call.selectProduct s =
        (Outcome.returned, s1.emit (Event.finishedAll :: deferredCalls env s1.currentProduct))) ∧
    (∀ s1, downloadAllBatch env (s.emit [Event.enter Call.handleDownloadAll]) = (none, s1) →
      env.productID = "" →
      (run env (fuel + 1) Call.handleDownloadAll s).1 = (run env fuel Call.selectProduct s1).1) ∧
    (∀ k a es, s.currentProduct.Articles.get? k = some a →
      env.mkdirAll (projectPath env s.currentProduct.Title) = none →
      downloadArticle env s.currentProduct a = (es, none) →
      run env (fuel + 1) (Call.handleSelectArticle (k + 1)) s =
        run env fuel Call.selectArticle
          (s.emit ([Event.enter (Call.handleSelectArticle (k + 1)), Event.lookup k,
            Event.mkdirAll (projectPath env s.currentProduct.Title)] ++ es ++
            [Event.finishedOne a.Title]))) := by
  refine ⟨?_, ?_, ?_, ?_⟩
  · intro s1 hb hid
    refine ⟨?_, ?_⟩
    · simp [run, hb, hid]
    · have := downloadAllBatch_scripts env (s.emit [Event.enter Call.handleDownloadAll])
      rw [hb] at this
      exact ⟨this.1, this.2.1⟩
  · intro p rest s1 hcat hacc hid hall hb
    simp [run, State.emit, hcat, hacc, hid, hall, checkError, hb]
  · intro s1 hb hid
    simp only [run, hb, hid]
    simp only [ne_eq, not_true_eq_false, if_false, ite_false]
    split <;> simp [*]
  · intro k a es ha hmk hd
    rw [List.get?_eq_getElem?] at ha
    simp [run, State.emit, mkDownloadProjectDir, hmk, checkError, ha, hd]

/-- C8 as amended, at concrete inputs: a batch over `col1` with the identity
pre-supplied returns without a prompt; a single download of `art1` with the
identity pre-supplied continues as `selectArticle`. -/
theorem completed_download_next_state_witness :
    (run batchEnv 1 Call.handleDownloadAll atCol1 =
      (Outcome.returned,
        { atCol1 with
          trace := [Event.enter Call.handleDownloadAll,
            Event.mkdirAll ["d", "u", "c"], Event.readDir ["d", "u", "c"],
            Event.startBrowser, Event.printPDF 1, Event.progress 1 1, Event.jitter,
            Event.finishedAll, Event.cancel, Event.cancel1] })) ∧
    (menuEnv.productID ≠ "" ∧
      run menuEnv 1 (Call.handleSelectArticle 1) atCol1 =
        run menuEnv 0 Call.selectArticle
          { atCol1 with
            trace := [Event.enter (Call.handleSelectArticle 1), Event.lookup 0,
              Event.mkdirAll ["d", "u", "c"],
              Event.startBrowser, Event.printPDF 1, Event.cancel, Event.cancel1,
              Event.finishedOne "t"] }) :=
  ⟨((completed_download_next_state batchEnv 0 atCol1).1
      { atCol1 with
        trace := [Event.enter Call.handleDownloadAll,
          Event.mkdirAll ["d", "u", "c"], Event.readDir ["d", "u", "c"],
          Event.startBrowser, Event.printPDF 1, Event.progress 1 1, Event.jitter] }
      (by decide) (by decide)).1,
   by decide,
   (completed_download_next_state menuEnv 0 atCol1).2.2.2 0 art1
      [Event.startBrowser, Event.printPDF 1, Event.cancel, Event.cancel1]
      (by decide) (by decide) (by decide)⟩

/-! ## C9: the single download and the batch -/

/-- The test `x == 1` on numbers as a decision. -/
theorem beq_one_decide (x : Nat) : (x == 1) = decide (x = 1) := by
  by_cases h : x = 1 <;> simp [h]

/-- When the snapshot holds none of the requested formats, the loop body of the
batch does not skip the article and misses every requested format. -/
theorem missing_of_disjoint (R b : Nat) (hR1 : 1 ≤ R) (hR : R ≤ 7) (hb : b ≤ 7)
    (h : R &&& b = 0) : b ≠ R ∧ missing R b = R := by
  interval_cases R <;> interval_cases b <;> simp +decide [missing] at h ⊢

/-- The calls for all of `R` are the calls for `R & ~E` exactly when `R & E = 0`. -/
theorem callsOfMask_eq_iff (R E : Nat) (aid : Int) (hR : R ≤ 7) (hE : E ≤ 7) :
    callsOfMask R aid = callsOfMask (missing R E) aid ↔ R &&& E = 0 := by
  interval_cases R <;> interval_cases E <;> simp +decide [callsOfMask, missing]

/-- The engine calls of the single download of a column article: always an
initial part of the calls for all of `R`, and all of them when the browser
start, the document render and the content-information lookup return no error. -/
theorem downloadArticle_engineCalls (env : Env) (p : Product) (a : Article)
    (hcol : isColumn p = true) :
    engineCalls (downloadArticle env p a).1 <+: callsOfMask env.columnOutputType a.AID ∧
    (env.chromeRun = none → env.printPDF a.AID = none → env.articleInfo a.AID = none →
      engineCalls (downloadArticle env p a).1 = callsOfMask env.columnOutputType a.AID) := by
  unfold downloadArticle downloadArticleRest
  simp only [hcol, if_true]
  rw [callsOfMask_flags]
  simp only [beq_one_decide]
  generalize decide (env.columnOutputType &&& 1 = 1) = q0
  generalize decide ((env.columnOutputType >>> 1) &&& 1 = 1) = q1
  generalize decide ((env.columnOutputType >>> 2) &&& 1 = 1) = q2
  cases q0 <;> cases q1 <;> cases q2 <;>
  cases hc : env.chromeRun <;>
  cases hp : env.printPDF a.AID <;> cases hi : env.articleInfo a.AID <;>
  cases hm : env.markdown a.AID <;> cases ha : env.audio a.AID <;>
  simp [checkError, engineCalls, isEngineCall]

/-- When the browser starts and the snapshot holds none of the requested
formats, the single download and the loop body of the batch dispatch the same
engine calls, whatever the calls return. -/
theorem downloadArticle_eq_columnBody (env : Env) (p : Product) (downloaded : List String)
    (total i : Nat) (a : Article) (hcol : isColumn p = true)
    (hR1 : 1 ≤ env.columnOutputType) (hR7 : env.columnOutputType ≤ 7)
    (hc : env.chromeRun = none)
    (hd : env.columnOutputType &&& existingMask env downloaded a = 0) :
    engineCalls (downloadArticle env p a).1 =
      engineCalls (columnBody env downloaded total i a).events := by
  have hb := existingMask_le env downloaded a
  unfold downloadArticle downloadArticleRest columnBody
  generalize existingMask env downloaded a = b at *
  generalize env.columnOutputType = R at *
  obtain ⟨hne, hmiss⟩ := missing_of_disjoint R b hR1 hR7 hb hd
  obtain ⟨f0, f1, f2, -⟩ := need_flags R b hR7 hb
  simp only [hcol, if_true, hne, if_false, hc]
  rw [f0, f1, f2, hmiss]
  simp only [beq_one_decide]
  generalize decide (R &&& 1 = 1) = q0
  generalize decide ((R >>> 1) &&& 1 = 1) = q1
  generalize decide ((R >>> 2) &&& 1 = 1) = q2
  cases q0 <;> cases q1 <;> cases q2 <;>
  cases hp : env.printPDF a.AID <;> cases hi : env.articleInfo a.AID <;>
  cases hm : env.markdown a.AID <;> cases ha : env.audio a.AID <;>
  simp [checkError, engineCalls, isEngineCall, Step.events]

/-- C9, the claim fails: only the document is requested and the document of the
article is already in the snapshot; the loop body of the batch dispatches no
engine call, the single download renders the document again. -/
theorem downloadArticle_dispatches_existing_format :
    existingMask quietEnv ["t.pdf"] art1 = 1 ∧
    engineCalls (columnBody quietEnv ["t.pdf"] 1 0 art1).events = [] ∧
    engineCalls (downloadArticle quietEnv col1 art1).1 = [Event.printPDF 1] := by
  refine ⟨?_, ?_, ?_⟩ <;> decide

/-- C9 as amended: for a column and a requested mask `R` between 1 and 7, the
engine calls of the single download are always an initial part of the calls for
every format in `R` (document render, text extraction, audio fetch, in that
order), whatever the snapshot holds. When the browser start, the document
render and the content-information lookup return no error they are exactly
those calls, and they are the engine calls of the loop body of the batch
exactly when the snapshot holds none of the requested formats of the article
(`R & E = 0`). When the browser start returns no error and `R & E = 0`, the two
paths dispatch the same engine calls whatever the other calls return. -/
theorem downloadArticle_dispatches_requested (env : Env) (p : Product)
    (downloaded : List String) (total i : Nat) (a : Article)
    (hcol : isColumn p = true)
    (hR1 : 1 ≤ env.columnOutputType) (hR7 : env.columnOutputType ≤ 7) :
    engineCalls (downloadArticle env p a).1 <+: callsOfMask env.columnOutputType a.AID ∧
    (env.chromeRun = none → env.printPDF a.AID = none → env.articleInfo a.AID = none →
      engineCalls (downloadArticle env p a).1 = callsOfMask env.columnOutputType a.AID ∧
      (engineCalls (downloadArticle env p a).1 =
          engineCalls (columnBody env downloaded total i a).events ↔
        env.columnOutputType &&& existingMask env downloaded a = 0)) ∧
    (env.chromeRun = none →
      env.columnOutputType &&& existingMask env downloaded a = 0 →
      engineCalls (downloadArticle env p a).1 =
        engineCalls (columnBody env downloaded total i a).events) := by
  have single := downloadArticle_engineCalls env p a hcol
  refine ⟨single.1, ?_, ?_⟩
  · intro hc hp hi
    refine ⟨single.2 hc hp hi, ?_⟩
    rw [single.2 hc hp hi, (columnBody_engineCalls env downloaded total i a hR7).2 hp hi]
    exact callsOfMask_eq_iff _ _ _ hR7 (existingMask_le env downloaded a)
  · intro hc hd
    exact downloadArticle_eq_columnBody env p downloaded total i a hcol hR1 hR7 hc hd

/-- C9 as amended, at a concrete input: document and audio requested, the
document on disk; the single download dispatches both calls, and with an empty
directory it dispatches what the loop body of the batch dispatches. -/
theorem downloadArticle_dispatches_requested_witness :
    (isColumn col1 = true ∧ 1 ≤ resumeEnv.columnOutputType ∧ resumeEnv.columnOutputType ≤ 7) ∧
    engineCalls (downloadArticle resumeEnv col1 art1).1 = [Event.printPDF 1, Event.audio 1] ∧
    engineCalls (downloadArticle resumeEnv col1 art1).1 =
      engineCalls (columnBody resumeEnv [] 1 0 art1).events :=
  ⟨by decide,
    ((downloadArticle_dispatches_requested resumeEnv col1 ["t.pdf"] 1 0 art1
      (by decide) (by decide) (by decide)).2.1 rfl rfl rfl).1,
    (downloadArticle_dispatches_requested resumeEnv col1 [] 1 0 art1
      (by decide) (by decide) (by decide)).2.2 rfl (by decide)⟩

/-! ## C10: the conversion of the product identity -/

/-- A line that the product-identity prompt returns converts without an error. -/
theorem promptProductID_valid (lines : List String) (l : String) (rest : List String)
    (h : promptProductID lines = (Except.ok l, rest)) : (atoi l).2 = none := by
  induction lines with
  | nil => simp [promptProductID] at h
  | cons x xs ih =>
    unfold promptProductID at h
    split at h
    · rename_i hv
      simp only [Prod.mk.injEq, Except.ok.injEq] at h
      obtain ⟨rfl, -⟩ := h
      unfold validateProductID at hv
      split at hv
      · simp at hv
      · split at hv
        · simp at hv
        · rename_i h2
          simpa using h2
    · exact ih h

/-- C10, evaluated where the code departs from the claim: the flag `productID`
holds `abc`; nothing checks it, the conversion fails, its error is dropped, and
`loadProduct` is called with identity 0, for which the catalog here has no
product. -/
theorem selectProduct_flag_not_a_number :
    atoi badFlagEnv.productID = (0, some "invalid syntax") ∧
    run badFlagEnv 2 Call.selectProduct (start [(Product.zero, some "no such product")] [] []) =
      (Outcome.exited "no such product",
        { start [] [] [] with
          trace := [Event.enter Call.selectProduct, Event.enter (Call.loadProduct 0),
            Event.getProduct false 0] }) := by
  refine ⟨?_, ?_⟩ <;> decide

end Geektime
